import Mathlib

/-!
Verification of the resume-analyser orchestration logic
(`resume_analyser_st.py`): the report formatter `create_analysis_report`,
the summary-table assembly, and the `main` orchestration flow, embedded
shallowly as pure Lean functions.  Python dictionaries with optional keys
are embedded as records of `Option`-typed fields; `dict.get(k, d)` becomes
`Option.getD`; Python exceptions become `Except String`; the Streamlit
calls performed by `main` become an explicit trace of events, with every
invocation of the external analyzer recorded as a call event.
-/

/-- Concatenation of a list of strings, as successive `+=` on an accumulator. -/
def strConcat : List String → String
  | [] => ""
  | s :: ss => s ++ strConcat ss

/-- The 50-character `=` separator line (`"=" * 50`). -/
def eqSep : String := String.mk (List.replicate 50 '=')

/-- The 50-character `-` separator line (`"-" * 50`). -/
def dashSep : String := String.mk (List.replicate 50 '-')

/-- One analysis-result mapping returned by the external analyzer.  Every
key the program reads is optional (`result.get(...)`), so each field is an
`Option`. -/
structure AnalysisResult where
  filename : Option String
  jdMatch : Option String
  profileSummary : Option String
  missingKeywords : Option (List String)
  suggestions : Option (List String)
deriving Repr, DecidableEq, Inhabited

/-- The Missing Keywords block of a report section: one `- keyword` line
per keyword if the list is truthy, else the literal line `None`. -/
def kwBlock (keywords : List String) : String :=
  if keywords ≠ [] then strConcat (keywords.map fun k => "- " ++ k ++ "\n")
  else "None\n"

/-- The Suggestions block of a report section: one `- suggestion` line per
suggestion, possibly empty. -/
def sgBlock (suggestions : List String) : String :=
  strConcat (suggestions.map fun s => "- " ++ s ++ "\n")

/-- One per-resume section of the text report, for 1-based index `i`
(body of the loop in `create_analysis_report`). -/
def reportSection (i : Nat) (r : AnalysisResult) : String :=
  "Resume #" ++ toString i ++ ": " ++ r.filename.getD "Unknown" ++ "\n"
    ++ dashSep ++ "\n"
    ++ "Match Score: " ++ r.jdMatch.getD "0%" ++ "\n\n"
    ++ "Profile Summary:\n"
    ++ r.profileSummary.getD "No summary available" ++ "\n\n"
    ++ "Missing Keywords:\n"
    ++ kwBlock (r.missingKeywords.getD []) ++ "\n"
    ++ "Suggestions:\n"
    ++ sgBlock (r.suggestions.getD []) ++ "\n" ++ eqSep ++ "\n\n"

/-- The loop of `create_analysis_report`: sections numbered from `i`
(the program starts `enumerate(results, 1)` at 1). -/
def reportBody : Nat → List AnalysisResult → String
  | _, [] => ""
  | i, r :: rs => reportSection i r ++ reportBody (i + 1) rs

/-- The report header: title line, `=` separator, generation timestamp and
a blank line.  The timestamp produced by `datetime.now().strftime` is a
parameter `now`. -/
def reportHeader (now : String) : String :=
  "Resume Analysis Report\n" ++ eqSep ++ "\n" ++ "Generated on: " ++ now ++ "\n\n"

/-- `create_analysis_report(results)`: header followed by one section per
result, numbered from 1. -/
def create_analysis_report (now : String) (results : List AnalysisResult) : String :=
  reportHeader now ++ reportBody 1 results

/-- A per-resume report section as the specification words it: the rank
label `n`, then in this field order the filename, the match score, the
profile summary, the missing-keyword list (one keyword per line, the
literal `None` when empty), the suggestion list (one suggestion per line,
possibly empty), followed by a separator line; absent fields resolve to
the fallbacks `0%`, `No summary available` and the empty sequence. -/
def reportSpecSection (n : Nat) (r : AnalysisResult) : String :=
  "Resume #" ++ toString n ++ ": " ++ r.filename.getD "Unknown" ++ "\n"
    ++ dashSep ++ "\n"
    ++ "Match Score: " ++ r.jdMatch.getD "0%" ++ "\n\n"
    ++ "Profile Summary:\n"
    ++ r.profileSummary.getD "No summary available" ++ "\n\n"
    ++ "Missing Keywords:\n"
    ++ (match r.missingKeywords.getD [] with
        | [] => "None\n"
        | ks => strConcat (ks.map fun k => "- " ++ k ++ "\n")) ++ "\n"
    ++ "Suggestions:\n"
    ++ strConcat ((r.suggestions.getD []).map fun s => "- " ++ s ++ "\n")
    ++ "\n" ++ eqSep ++ "\n\n"

/-- One row of the summary table assembled in the multi-resume branch. -/
structure SummaryRow where
  rank : Nat
  resume : String
  matchPercent : String
  missingKeywords : String
deriving Repr, DecidableEq, Inhabited

/-- The `summary_data` list built in the multi-resume branch: one row per
result with `Rank = i + 1` for 0-based enumeration index `i`; the keyword
cell joins the keywords with `", "` when truthy, else `None`. -/
def summary_data (results : List AnalysisResult) : List SummaryRow :=
  results.enum.map fun p =>
    { rank := p.1 + 1
      resume := p.2.filename.getD "Unknown"
      matchPercent := p.2.jdMatch.getD "0%"
      missingKeywords :=
        match p.2.missingKeywords with
        | some (k :: ks) => String.intercalate ", " (k :: ks)
        | _ => "None" }

/-- An uploaded resume document: its `.name` and (abstract) content. -/
structure Document where
  name : String
  content : String
deriving Repr, DecidableEq, Inhabited

/-- The dynamic value returned by `analyzer.analyze_resume`: either a
dictionary (whose relevant keys are each optional) or a non-dictionary
value.  `isinstance(result, dict) and "JD Match" in result` holds exactly
when it is `dict` with `jdMatch = some _`. -/
inductive SingleValue where
  | dict (jdMatch : Option String) (profileSummary : Option String)
      (missingKeywords : Option (List String)) (suggestions : Option (List String))
  | nonDict
deriving Repr, DecidableEq, Inhabited

/-- The program's response-shape check on a single-resume result. -/
def hasJDMatch : SingleValue → Bool
  | .dict (some _) _ _ _ => true
  | _ => false

/-- The external `ResumeAnalyzer`: each capability may raise (modelled as
`Except.error` carrying `str(e)`). -/
structure Analyzer where
  extract_text_from_pdf : Document → Except String String
  analyze_resume : String → String → Except String SingleValue
  analyze_multiple_resumes :
    List (String × Document) → String → Except String (List AnalysisResult)

/-- The observable actions `main` performs, in order: Streamlit renderings
and, recorded explicitly, each invocation of the external analyzer. -/
inductive Event where
  | warning (msg : String)
  | error (msg : String)
  | success (msg : String)
  | write (msg : String)
  | metric (label value : String)
  | info (msg : String)
  | subheader (msg : String)
  | expander (label : String)
  | download (fileName content : String)
  | table (rows : List SummaryRow)
  | callExtract (doc : Document)
  | callAnalyze (text jd : String)
  | callBatch (files : List (String × Document)) (jd : String)
deriving Repr, DecidableEq

/-- Whether an event is an invocation of the external analyzer. -/
def isCall : Event → Bool
  | .callExtract _ => true
  | .callAnalyze _ _ => true
  | .callBatch _ _ => true
  | _ => false

/-- Whether an event is a batch-analysis invocation. -/
def isBatchCall : Event → Bool
  | .callBatch _ _ => true
  | _ => false

/-- Whether an event offers the downloadable report. -/
def isDownload : Event → Bool
  | .download _ _ => true
  | _ => false

/-- The user-facing warning messages of a trace, in order. -/
def warningMsgs (es : List Event) : List String :=
  es.filterMap fun e =>
    match e with
    | .warning m => some m
    | _ => none

/-- `str(KeyError(k))` as Python prints it. -/
def keyError (k : String) : String := "'" ++ k ++ "'"

/-- The two error messages shown by the single-resume `except` clause. -/
def errSingle (e : String) : List Event :=
  [.error ("Error occurred: " ++ e),
   .error "Please try again with a different resume or job description"]

/-- The two error messages shown by the multi-resume `except` clause. -/
def errBatch (e : String) : List Event :=
  [.error ("Error occurred: " ++ e),
   .error "Please try again with different resumes or job description"]

/-- The single-resume result display (lines 83-103): direct key accesses
`result["..."]` raise `KeyError` when the key is absent, which the
enclosing `except` turns into the generic error pair; renderings performed
before the raise remain. -/
def displaySingle (jm : String) (ps : Option String)
    (mks : Option (List String)) (sg : Option (List String)) : List Event :=
  .success "Analysis completed!" ::
  .metric "Job Description Match" jm ::
  .subheader "Missing Keywords" ::
  match mks with
  | none => errSingle (keyError "MissingKeywords")
  | some ks =>
    (if ks ≠ [] then ks.map fun k => .write ("• " ++ k)
     else [.write "No missing keywords found"]) ++
    .subheader "Profile Summary" ::
    match ps with
    | none => errSingle (keyError "Profile Summary")
    | some p =>
      .info p ::
      .subheader "Suggestions" ::
      match sg with
      | none => errSingle (keyError "Suggestions")
      | some ss => ss.map fun s => .warning ("• " ++ s)

/-- The single-resume branch of `main` (the `try` at lines 73-109). -/
def runSingle (A : Analyzer) (doc : Document) (jd : String) : List Event :=
  .callExtract doc ::
  match A.extract_text_from_pdf doc with
  | .error e => errSingle e
  | .ok txt =>
    .callAnalyze txt jd ::
    match A.analyze_resume txt jd with
    | .error e => errSingle e
    | .ok v =>
      match v with
      | .dict (some jm) ps mks sg => displaySingle jm ps mks sg
      | _ => [.error "Invalid response format from the analyzer"]

/-- One expandable detailed section of the multi-resume display, for
0-based index `i`. -/
def detailOne (i : Nat) (r : AnalysisResult) : List Event :=
  .expander ("#" ++ toString (i + 1) ++ ": " ++ r.filename.getD "Unknown"
      ++ " - " ++ r.jdMatch.getD "0%" ++ " Match") ::
  .subheader "Profile Summary" ::
  .info (r.profileSummary.getD "No summary available") ::
  .subheader "Missing Keywords" ::
  ((match r.missingKeywords with
    | some (k :: ks) => (k :: ks).map fun w => Event.write ("• " ++ w)
    | _ => [Event.write "No missing keywords found"]) ++
   .subheader "Suggestions" ::
   (r.suggestions.getD []).map fun s => Event.warning ("• " ++ s))

/-- The multi-resume branch of `main` (the `try` at lines 112-169).
`now` is the report timestamp, `nowFile` the timestamp embedded in the
download file name. -/
def runBatch (A : Analyzer) (files : List Document) (jd now nowFile : String) :
    List Event :=
  .callBatch (files.map fun f => (f.name, f)) jd ::
  match A.analyze_multiple_resumes (files.map fun f => (f.name, f)) jd with
  | .error e => errBatch e
  | .ok results =>
    if results ≠ [] then
      .success ("Successfully analyzed " ++ toString results.length ++ " resumes!") ::
      .download ("resume_analysis_" ++ nowFile ++ ".txt")
        (create_analysis_report now results) ::
      .subheader "Resume Ranking" ::
      .table (summary_data results) ::
      .subheader "Detailed Analysis" ::
      (results.enum.map fun p => detailOne p.1 p.2).flatten
    else [.error "Failed to analyze resumes. Please try again."]

/-- The uploaded-file count line, shown when the upload list is truthy. -/
def fileCountEvents (files : List Document) : List Event :=
  if files ≠ [] then
    [.write ("📄 " ++ toString files.length ++ " resume(s) uploaded")]
  else []

/-- The inputs `main` reads from its widgets: the credential, the job
description, the uploaded documents, and whether the Analyze button was
clicked on this run. -/
structure Inputs where
  api_key : String
  job_description : String
  uploaded_files : List Document
  button : Bool
deriving Repr, DecidableEq, Inhabited

namespace App

/-- The `main` orchestration flow as an event trace.  Empty strings and
empty lists are falsy, as in Python. -/
def main (A : Analyzer) (now nowFile : String) (inp : Inputs) : List Event :=
  if inp.api_key = "" then [.warning "Please enter your OpenAI API key."]
  else
    fileCountEvents inp.uploaded_files ++
    if inp.button = true ∧ inp.uploaded_files ≠ [] ∧ inp.job_description ≠ "" then
      if inp.uploaded_files.length = 1 then
        runSingle A (inp.uploaded_files.headD default) inp.job_description
      else
        runBatch A inp.uploaded_files inp.job_description now nowFile
    else
      [.warning "Please upload at least one resume and provide a job description."]

end App

/-! ## Helper lemmas about the report formatter -/

theorem reportSection_eq_spec (i : Nat) (r : AnalysisResult) :
    reportSection i r = reportSpecSection i r := by
  unfold reportSection reportSpecSection kwBlock sgBlock
  cases r.missingKeywords.getD [] with
  | nil => rfl
  | cons k ks => rfl

theorem reportBody_eq (rs : List AnalysisResult) : ∀ k : Nat,
    reportBody k rs =
      strConcat ((List.range rs.length).map fun n =>
        reportSpecSection (k + n) (rs.getD n default)) := by
  induction rs with
  | nil => intro k; rfl
  | cons r rs ih =>
    intro k
    rw [List.length_cons, List.range_succ_eq_map, List.map_cons, List.map_map]
    have hfun :
        ((fun n => reportSpecSection (k + n) ((r :: rs).getD n default)) ∘ Nat.succ)
          = fun n => reportSpecSection ((k + 1) + n) (rs.getD n default) := by
      funext n
      show reportSpecSection (k + (n + 1)) ((r :: rs).getD (n + 1) default)
          = reportSpecSection ((k + 1) + n) (rs.getD n default)
      have hk : k + (n + 1) = (k + 1) + n := by omega
      rw [hk]
      rfl
    rw [hfun]
    show reportSection k r ++ reportBody (k + 1) rs
        = strConcat (reportSpecSection (k + 0) ((r :: rs).getD 0 default)
            :: (List.range rs.length).map fun n =>
                 reportSpecSection ((k + 1) + n) (rs.getD n default))
    rw [reportSection_eq_spec, ih (k + 1)]
    rfl

/-- A result mapping with both optional lists present but empty. -/
def emptyListsResult : AnalysisResult :=
  { filename := some "a.pdf", jdMatch := some "90%", profileSummary := some "ok",
    missingKeywords := some [], suggestions := some [] }

/-- A result mapping with no keys at all. -/
def bareResult : AnalysisResult :=
  { filename := none, jdMatch := none, profileSummary := none,
    missingKeywords := none, suggestions := none }

/-- Claim C1: for every non-empty sequence of result mappings,
`create_analysis_report` emits one section per result in input order with
1-based numbering, each section in the field order filename, match score,
profile summary, missing-keyword list, suggestion list, then a separator
(`reportSpecSection`, worded from the specification), with absent fields
resolving to the fallbacks `0%`, `No summary available` and the empty
sequence; the `n`-th section's rank label is `n`. -/
theorem create_report_sections_in_order (now : String)
    (results : List AnalysisResult) (h : results ≠ []) :
    create_analysis_report now results =
      reportHeader now ++
        strConcat ((List.range results.length).map fun n =>
          reportSpecSection (n + 1) (results.getD n default))
    ∧ ∀ n : Nat, ∀ r : AnalysisResult, ∃ rest : String,
        reportSpecSection n r = "Resume #" ++ toString n ++ rest := by
  constructor
  · unfold create_analysis_report
    rw [reportBody_eq]
    have hfun : (fun n => reportSpecSection (1 + n) (results.getD n default))
        = fun n => reportSpecSection (n + 1) (results.getD n default) := by
      funext n
      rw [Nat.add_comm]
    rw [hfun]
  · intro n r
    exact ⟨": " ++ r.filename.getD "Unknown" ++ "\n"
      ++ dashSep ++ "\n"
      ++ "Match Score: " ++ r.jdMatch.getD "0%" ++ "\n\n"
      ++ "Profile Summary:\n"
      ++ r.profileSummary.getD "No summary available" ++ "\n\n"
      ++ "Missing Keywords:\n"
      ++ (match r.missingKeywords.getD [] with
          | [] => "None\n"
          | ks => strConcat (ks.map fun k => "- " ++ k ++ "\n")) ++ "\n"
      ++ "Suggestions:\n"
      ++ strConcat ((r.suggestions.getD []).map fun s => "- " ++ s ++ "\n")
      ++ "\n" ++ eqSep ++ "\n\n", by
        unfold reportSpecSection
        simp [String.append_assoc]⟩

/-- Witness for C1 at the one-element list holding `bareResult`. -/
theorem create_report_sections_in_order_witness :
    ([bareResult] : List AnalysisResult) ≠ [] ∧
      (create_analysis_report "2026-10-12 00:00:00" [bareResult] =
        reportHeader "2026-10-12 00:00:00" ++
          strConcat ((List.range ([bareResult] : List AnalysisResult).length).map fun n =>
            reportSpecSection (n + 1) (([bareResult] : List AnalysisResult).getD n default))
      ∧ ∀ n : Nat, ∀ r : AnalysisResult, ∃ rest : String,
          reportSpecSection n r = "Resume #" ++ toString n ++ rest) :=
  ⟨List.cons_ne_nil _ _,
    create_report_sections_in_order "2026-10-12 00:00:00" [bareResult]
      (List.cons_ne_nil _ _)⟩

/-- Claim C3: the `Rank` of the `i`-th summary row is `i + 1`, the rows
keep the analyzer's output order for every column, and the report numbers
its sections the same way; no re-sorting by match percentage happens. -/
theorem rank_follows_analyzer_order (results : List AnalysisResult) :
    (summary_data results).map SummaryRow.rank = List.range' 1 results.length
    ∧ (summary_data results).map SummaryRow.resume
        = results.map (fun r => r.filename.getD "Unknown")
    ∧ (summary_data results).map SummaryRow.matchPercent
        = results.map (fun r => r.jdMatch.getD "0%")
    ∧ reportBody 1 results =
        strConcat ((List.range results.length).map fun n =>
          reportSpecSection (n + 1) (results.getD n default)) := by
  refine ⟨?_, ?_, ?_, ?_⟩
  · unfold summary_data
    rw [List.map_map, List.range'_eq_map_range, ← List.enum_map_fst results,
      List.map_map]
    congr 1
    funext p
    show p.1 + 1 = 1 + p.1
    omega
  · unfold summary_data
    conv_rhs => rw [← List.enum_map_snd results]
    rw [List.map_map, List.map_map]
    rfl
  · unfold summary_data
    conv_rhs => rw [← List.enum_map_snd results]
    rw [List.map_map, List.map_map]
    rfl
  · rw [reportBody_eq]
    have hfun : (fun n => reportSpecSection (1 + n) (results.getD n default))
        = fun n => reportSpecSection (n + 1) (results.getD n default) := by
      funext n
      rw [Nat.add_comm]
    rw [hfun]

/-- Claim C4: in a report section, an empty missing-keyword list renders
as the literal line `None` while an empty suggestion list renders as an
empty body; the third conjunct places both blocks inside the section. -/
theorem empty_keyword_suggestion_asymmetry (i : Nat) (r : AnalysisResult) :
    (r.missingKeywords.getD [] = [] →
      kwBlock (r.missingKeywords.getD []) = "None\n")
    ∧ (r.suggestions.getD [] = [] → sgBlock (r.suggestions.getD []) = "")
    ∧ reportSection i r =
        "Resume #" ++ toString i ++ ": " ++ r.filename.getD "Unknown" ++ "\n"
          ++ dashSep ++ "\n"
          ++ "Match Score: " ++ r.jdMatch.getD "0%" ++ "\n\n"
          ++ "Profile Summary:\n"
          ++ r.profileSummary.getD "No summary available" ++ "\n\n"
          ++ "Missing Keywords:\n"
          ++ kwBlock (r.missingKeywords.getD []) ++ "\n"
          ++ "Suggestions:\n"
          ++ sgBlock (r.suggestions.getD []) ++ "\n" ++ eqSep ++ "\n\n" := by
  refine ⟨fun h => ?_, fun h => ?_, rfl⟩
  · rw [h]; rfl
  · rw [h]; rfl

/-- Witness for C4 at a result with present-but-empty lists. -/
theorem empty_keyword_suggestion_asymmetry_witness :
    (emptyListsResult.missingKeywords.getD [] = []
      ∧ kwBlock (emptyListsResult.missingKeywords.getD []) = "None\n")
    ∧ (emptyListsResult.suggestions.getD [] = []
      ∧ sgBlock (emptyListsResult.suggestions.getD []) = "") :=
  ⟨⟨rfl, (empty_keyword_suggestion_asymmetry 1 emptyListsResult).1 rfl⟩,
   ⟨rfl, (empty_keyword_suggestion_asymmetry 1 emptyListsResult).2.1 rfl⟩⟩

set_option maxHeartbeats 2000000 in
/-- Claim C9 counterexample: the report text does not begin with the
separator line — its first line is the title `Resume Analysis Report`. -/
theorem report_not_prefixed_by_separator :
    List.isPrefixOf eqSep.data
        (create_analysis_report "2026-10-12 00:00:00" []).data = false
    ∧ List.isPrefixOf "Resume Analysis Report\n".data
        (create_analysis_report "2026-10-12 00:00:00" []).data = true := by
  constructor
  · rfl
  · rfl

/-- Claim C9 as amended: for every input the report begins with the title
line, then the fixed-width separator line and the generation timestamp,
before any per-resume section. -/
theorem report_header_shape (now : String) (results : List AnalysisResult) :
    create_analysis_report now results =
      "Resume Analysis Report\n" ++ (eqSep ++ ("\n" ++ ("Generated on: "
        ++ (now ++ ("\n\n" ++ reportBody 1 results))))) := by
  unfold create_analysis_report reportHeader
  simp only [String.append_assoc]

/-- Claim C10: `create_analysis_report` is total; on the empty list it
returns exactly the header block — title line, 50-character separator,
timestamp line and blank line — with zero sections. -/
theorem report_total_empty_header (now : String) (results : List AnalysisResult) :
    create_analysis_report now [] =
      "Resume Analysis Report\n" ++ eqSep ++ "\n" ++ "Generated on: " ++ now ++ "\n\n"
    ∧ eqSep.length = 50
    ∧ create_analysis_report now results = reportHeader now ++ reportBody 1 results := by
  refine ⟨?_, by decide, rfl⟩
  show reportHeader now ++ "" = _
  rw [String.append_empty]
  rfl

/-! ## Helper lemmas about analyzer-call events in traces -/

theorem isCall_eq_false_of_mem_errSingle {a : Event} {e : String}
    (ha : a ∈ errSingle e) : isCall a = false := by
  simp only [errSingle, List.mem_cons, List.not_mem_nil, or_false] at ha
  rcases ha with h | h <;> subst h <;> rfl

theorem isCall_eq_false_of_mem_errBatch {a : Event} {e : String}
    (ha : a ∈ errBatch e) : isCall a = false := by
  simp only [errBatch, List.mem_cons, List.not_mem_nil, or_false] at ha
  rcases ha with h | h <;> subst h <;> rfl

theorem isCall_eq_false_of_mem_displaySingle {a : Event} {jm : String}
    {ps : Option String} {mks sg : Option (List String)}
    (ha : a ∈ displaySingle jm ps mks sg) : isCall a = false := by
  unfold displaySingle at ha
  cases mks with
  | none =>
    simp only [List.mem_cons] at ha
    rcases ha with h | h | h | h
    · subst h; rfl
    · subst h; rfl
    · subst h; rfl
    · exact isCall_eq_false_of_mem_errSingle h
  | some ks =>
    simp only [List.mem_cons, List.mem_append] at ha
    rcases ha with h | h | h | h | h
    · subst h; rfl
    · subst h; rfl
    · subst h; rfl
    · split at h
      · simp only [List.mem_map] at h
        obtain ⟨k, -, h⟩ := h
        subst h; rfl
      · simp only [List.mem_cons, List.not_mem_nil, or_false] at h
        subst h; rfl
    · rcases h with h | h
      · subst h; rfl
      · cases ps with
        | none => exact isCall_eq_false_of_mem_errSingle h
        | some p =>
          simp only [List.mem_cons] at h
          rcases h with h | h | h
          · subst h; rfl
          · subst h; rfl
          · cases sg with
            | none => exact isCall_eq_false_of_mem_errSingle h
            | some ss =>
              simp only [List.mem_map] at h
              obtain ⟨s, -, h⟩ := h
              subst h; rfl

theorem isCall_eq_false_of_mem_detailOne {a : Event} {i : Nat}
    {r : AnalysisResult} (ha : a ∈ detailOne i r) : isCall a = false := by
  unfold detailOne at ha
  simp only [List.mem_cons, List.mem_append] at ha
  rcases ha with h | h | h | h | h | h
  · subst h; rfl
  · subst h; rfl
  · subst h; rfl
  · subst h; rfl
  · rcases hmk : r.missingKeywords with - | ks
    · rw [hmk] at h
      simp only [List.mem_cons, List.not_mem_nil, or_false] at h
      subst h; rfl
    · rw [hmk] at h
      cases ks with
      | nil =>
        simp only [List.mem_cons, List.not_mem_nil, or_false] at h
        subst h; rfl
      | cons k ks =>
        simp only [List.mem_map] at h
        obtain ⟨w, -, h⟩ := h
        subst h; rfl
  · simp only [List.mem_cons, List.mem_map] at h
    rcases h with h | ⟨s, -, h⟩
    · subst h; rfl
    · subst h; rfl

theorem isCall_eq_false_of_mem_fileCount {a : Event} {files : List Document}
    (ha : a ∈ fileCountEvents files) : isCall a = false := by
  unfold fileCountEvents at ha
  split at ha
  · simp only [List.mem_cons, List.not_mem_nil, or_false] at ha
    subst ha; rfl
  · exact absurd ha (List.not_mem_nil a)

theorem isBatchCall_eq_false_of_isCall {a : Event} (h : isCall a = false) :
    isBatchCall a = false := by
  cases a <;> first | rfl | exact absurd h (by simp [isCall])

theorem filter_isCall_errSingle (e : String) :
    (errSingle e).filter isCall = [] := rfl

theorem filter_isCall_errBatch (e : String) :
    (errBatch e).filter isCall = [] := rfl

theorem filter_isCall_displaySingle (jm : String) (ps : Option String)
    (mks sg : Option (List String)) :
    (displaySingle jm ps mks sg).filter isCall = [] :=
  List.filter_eq_nil_iff.mpr fun _ ha => by
    simp [isCall_eq_false_of_mem_displaySingle ha]

theorem filter_isCall_detail (results : List AnalysisResult) :
    ((results.enum.map fun p => detailOne p.1 p.2).flatten).filter isCall = [] :=
  List.filter_eq_nil_iff.mpr fun a ha => by
    simp only [List.mem_flatten, List.mem_map] at ha
    obtain ⟨l, ⟨p, -, hl⟩, hmem⟩ := ha
    subst hl
    simp [isCall_eq_false_of_mem_detailOne hmem]

/-- The analyzer calls of the single-resume branch: the extraction call,
then the single-resume analysis call when extraction succeeded — never a
batch call and never a second attempt. -/
theorem filter_isCall_runSingle (A : Analyzer) (doc : Document) (jd : String) :
    (runSingle A doc jd).filter isCall =
      Event.callExtract doc ::
        (match A.extract_text_from_pdf doc with
         | .error _ => []
         | .ok txt => [Event.callAnalyze txt jd]) := by
  unfold runSingle
  cases hx : A.extract_text_from_pdf doc with
  | error e => simp [hx, List.filter_cons, isCall, filter_isCall_errSingle]
  | ok txt =>
    cases ha : A.analyze_resume txt jd with
    | error e =>
      simp [hx, ha, List.filter_cons, isCall, filter_isCall_errSingle]
    | ok v =>
      cases v with
      | nonDict => simp [hx, ha, List.filter_cons, isCall]
      | dict jm ps mks sg =>
        cases jm with
        | none => simp [hx, ha, List.filter_cons, isCall]
        | some m =>
          simp [hx, ha, List.filter_cons, isCall, filter_isCall_displaySingle]

/-- The analyzer calls of the multi-resume branch: exactly the one batch
call, whatever the analyzer returns. -/
theorem filter_isCall_runBatch (A : Analyzer) (files : List Document)
    (jd now nowFile : String) :
    (runBatch A files jd now nowFile).filter isCall =
      [Event.callBatch (files.map fun f => (f.name, f)) jd] := by
  unfold runBatch
  cases hb : A.analyze_multiple_resumes (files.map fun f => (f.name, f)) jd with
  | error e => simp [hb, List.filter_cons, isCall, filter_isCall_errBatch]
  | ok results =>
    by_cases hres : results ≠ []
    · simp only [hb, hres, if_true, ne_eq, not_false_eq_true, List.filter_cons,
        isCall, Bool.false_eq_true, if_false, decide_True, decide_False]
      simp [List.filter_cons, isCall]
      intro l x r hmem hfil
      subst hfil
      exact List.filter_eq_nil_iff.mpr fun a ha => by
        simp [isCall_eq_false_of_mem_detailOne ha]
    · simp [hb, hres, List.filter_cons, isCall]

theorem filter_isCall_fileCount (files : List Document) :
    (fileCountEvents files).filter isCall = [] :=
  List.filter_eq_nil_iff.mpr fun _ ha => by
    simp [isCall_eq_false_of_mem_fileCount ha]

/-- Unfolding of `main` when all inputs are present and the button was
clicked: the count line followed by the single- or multi-resume branch. -/
theorem main_branches (A : Analyzer) (now nowFile : String) (inp : Inputs)
    (hk : inp.api_key ≠ "") (hb : inp.button = true)
    (hf : inp.uploaded_files ≠ []) (hjd : inp.job_description ≠ "") :
    App.main A now nowFile inp =
      fileCountEvents inp.uploaded_files ++
        (if inp.uploaded_files.length = 1 then
          runSingle A (inp.uploaded_files.headD default) inp.job_description
        else
          runBatch A inp.uploaded_files inp.job_description now nowFile) := by
  unfold App.main
  rw [if_neg hk, if_pos ⟨hb, hf, hjd⟩]

theorem filter_isBatchCall_via_isCall (l : List Event) :
    l.filter isBatchCall = (l.filter isCall).filter isBatchCall := by
  induction l with
  | nil => rfl
  | cons a as ih =>
    cases a <;> simp [List.filter_cons, isCall, isBatchCall, ih]

theorem filter_isDownload_fileCount (files : List Document) :
    (fileCountEvents files).filter isDownload = [] := by
  unfold fileCountEvents
  split <;> rfl

theorem warningMsgs_append (l1 l2 : List Event) :
    warningMsgs (l1 ++ l2) = warningMsgs l1 ++ warningMsgs l2 :=
  List.filterMap_append l1 l2 _

theorem warningMsgs_fileCount (files : List Document) :
    warningMsgs (fileCountEvents files) = [] := by
  unfold warningMsgs fileCountEvents
  split <;> rfl

/-- Unfolding of `main` when the credential is present but the button was
not clicked, no file was uploaded, or the job description is empty. -/
theorem main_missing_inputs (A : Analyzer) (now nowFile : String) (inp : Inputs)
    (hk : inp.api_key ≠ "")
    (h : ¬(inp.button = true ∧ inp.uploaded_files ≠ [] ∧ inp.job_description ≠ "")) :
    App.main A now nowFile inp =
      fileCountEvents inp.uploaded_files ++
        [Event.warning "Please upload at least one resume and provide a job description."] := by
  unfold App.main
  rw [if_neg hk, if_neg h]

/-! ## Concrete fixtures used by the witnesses -/

/-- A concrete uploaded document. -/
def docA : Document := { name := "alice.pdf", content := "alice resume text" }

/-- A second concrete uploaded document. -/
def docB : Document := { name := "bob.pdf", content := "bob resume text" }

/-- An analyzer whose every capability succeeds. -/
def okAnalyzer : Analyzer :=
  { extract_text_from_pdf := fun d => .ok d.content
    analyze_resume := fun _ _ =>
      .ok (.dict (some "82%") (some "Good fit") (some []) (some []))
    analyze_multiple_resumes := fun fs _ =>
      .ok (fs.map fun p =>
        { filename := some p.1, jdMatch := some "70%", profileSummary := some "ok",
          missingKeywords := some [], suggestions := some [] }) }

/-- An analyzer whose every capability raises. -/
def failAnalyzer : Analyzer :=
  { extract_text_from_pdf := fun _ => .error "boom"
    analyze_resume := fun _ _ => .error "boom"
    analyze_multiple_resumes := fun _ _ => .error "boom" }

/-- An analyzer that extracts fine but raises on single-resume analysis. -/
def analyzeFailAnalyzer : Analyzer :=
  { extract_text_from_pdf := fun d => .ok d.content
    analyze_resume := fun _ _ => .error "boom"
    analyze_multiple_resumes := fun _ _ => .error "boom" }

/-- An analyzer whose single-resume analysis returns a non-mapping value. -/
def badShapeAnalyzer : Analyzer :=
  { extract_text_from_pdf := fun d => .ok d.content
    analyze_resume := fun _ _ => .ok .nonDict
    analyze_multiple_resumes := fun _ _ => .ok [] }

/-- Inputs with one uploaded document and everything present. -/
def singleInput : Inputs :=
  { api_key := "sk-key", job_description := "a job",
    uploaded_files := [docA], button := true }

/-- Inputs with two uploaded documents and everything present. -/
def batchInput : Inputs :=
  { api_key := "sk-key", job_description := "a job",
    uploaded_files := [docA, docB], button := true }

/-- Inputs with no uploaded documents. -/
def noFilesInput : Inputs :=
  { api_key := "sk-key", job_description := "a job",
    uploaded_files := [], button := true }

/-- Inputs with an empty job description. -/
def noJdInput : Inputs :=
  { api_key := "sk-key", job_description := "",
    uploaded_files := [docA], button := true }

/-- Inputs with an empty credential. -/
def noKeyInput : Inputs :=
  { api_key := "", job_description := "a job",
    uploaded_files := [docA], button := true }

/-- Claim C5: with everything present, exactly one document takes the
single-resume path (extraction then single-resume analysis, never a batch
call), and two or more documents take the batch path with exactly one
batch call over all (filename, document) pairs; the boundary is between
counts 1 and 2. -/
theorem single_vs_batch_boundary (A : Analyzer) (now nowFile : String)
    (inp : Inputs) (hk : inp.api_key ≠ "") (hb : inp.button = true)
    (hf : inp.uploaded_files ≠ []) (hjd : inp.job_description ≠ "") :
    (inp.uploaded_files.length = 1 →
      App.main A now nowFile inp =
        fileCountEvents inp.uploaded_files ++
          runSingle A (inp.uploaded_files.headD default) inp.job_description
      ∧ (App.main A now nowFile inp).filter isBatchCall = [])
    ∧ (2 ≤ inp.uploaded_files.length →
      App.main A now nowFile inp =
        fileCountEvents inp.uploaded_files ++
          runBatch A inp.uploaded_files inp.job_description now nowFile
      ∧ (App.main A now nowFile inp).filter isCall =
          [Event.callBatch (inp.uploaded_files.map fun f => (f.name, f))
            inp.job_description]) := by
  have hmain := main_branches A now nowFile inp hk hb hf hjd
  constructor
  · intro h1
    rw [hmain, if_pos h1]
    refine ⟨rfl, ?_⟩
    rw [List.filter_append, filter_isBatchCall_via_isCall (fileCountEvents _),
      filter_isCall_fileCount, filter_isBatchCall_via_isCall (runSingle _ _ _),
      filter_isCall_runSingle]
    cases A.extract_text_from_pdf (inp.uploaded_files.headD default) <;> rfl
  · intro h2
    have hne : ¬ inp.uploaded_files.length = 1 := by omega
    rw [hmain, if_neg hne]
    refine ⟨rfl, ?_⟩
    rw [List.filter_append, filter_isCall_fileCount, filter_isCall_runBatch]
    rfl

/-- Witness for C5: one document routes to the single path, two documents
route to the batch path. -/
theorem single_vs_batch_boundary_witness :
    (singleInput.uploaded_files.length = 1 ∧
      App.main okAnalyzer "T" "F" singleInput =
        fileCountEvents singleInput.uploaded_files ++
          runSingle okAnalyzer (singleInput.uploaded_files.headD default)
            singleInput.job_description
      ∧ (App.main okAnalyzer "T" "F" singleInput).filter isBatchCall = [])
    ∧ (2 ≤ batchInput.uploaded_files.length ∧
      App.main okAnalyzer "T" "F" batchInput =
        fileCountEvents batchInput.uploaded_files ++
          runBatch okAnalyzer batchInput.uploaded_files
            batchInput.job_description "T" "F"
      ∧ (App.main okAnalyzer "T" "F" batchInput).filter isCall =
          [Event.callBatch (batchInput.uploaded_files.map fun f => (f.name, f))
            batchInput.job_description]) :=
  ⟨⟨rfl, (single_vs_batch_boundary okAnalyzer "T" "F" singleInput (by decide)
      rfl (by decide) (by decide)).1 rfl⟩,
   ⟨by decide, (single_vs_batch_boundary okAnalyzer "T" "F" batchInput (by decide)
      rfl (by decide) (by decide)).2 (by decide)⟩⟩

/-- Claim C6: with no uploaded documents or an empty job description, no
analyzer capability is invoked on the action, whatever the analyzer, the
credential or the button state. -/
theorem no_calls_without_inputs (A : Analyzer) (now nowFile : String)
    (inp : Inputs) (h : inp.uploaded_files = [] ∨ inp.job_description = "") :
    (App.main A now nowFile inp).filter isCall = [] := by
  by_cases hk : inp.api_key = ""
  · show (App.main A now nowFile inp).filter isCall = []
    unfold App.main
    rw [if_pos hk]
    rfl
  · have hg : ¬(inp.button = true ∧ inp.uploaded_files ≠ [] ∧
        inp.job_description ≠ "") := by
      rintro ⟨-, hf, hjd⟩
      rcases h with h | h
      · exact hf h
      · exact hjd h
    rw [main_missing_inputs A now nowFile inp hk hg, List.filter_append,
      filter_isCall_fileCount]
    rfl

/-- Witness for C6 with no uploaded documents. -/
theorem no_calls_without_inputs_witness :
    (noFilesInput.uploaded_files = [] ∨ noFilesInput.job_description = "")
    ∧ (App.main failAnalyzer "T" "F" noFilesInput).filter isCall = [] :=
  ⟨Or.inl rfl,
   no_calls_without_inputs failAnalyzer "T" "F" noFilesInput (Or.inl rfl)⟩

/-- Claim C2: when an analyzer capability raises during an analysis
action, the exception is caught at the orchestration boundary and reported
as the generic error pair; the trace contains no report download, no
per-resume output and no second call — failure is all-or-nothing. -/
theorem analyzer_failure_all_or_nothing (A : Analyzer) (now nowFile : String)
    (inp : Inputs) (e : String) (hk : inp.api_key ≠ "") (hb : inp.button = true)
    (hf : inp.uploaded_files ≠ []) (hjd : inp.job_description ≠ "") :
    (2 ≤ inp.uploaded_files.length →
      A.analyze_multiple_resumes
          (inp.uploaded_files.map fun f => (f.name, f)) inp.job_description
        = .error e →
      App.main A now nowFile inp =
        fileCountEvents inp.uploaded_files ++
          (Event.callBatch (inp.uploaded_files.map fun f => (f.name, f))
              inp.job_description :: errBatch e)
      ∧ (App.main A now nowFile inp).filter isDownload = [])
    ∧ (inp.uploaded_files.length = 1 →
      A.extract_text_from_pdf (inp.uploaded_files.headD default) = .error e →
      App.main A now nowFile inp =
        fileCountEvents inp.uploaded_files ++
          (Event.callExtract (inp.uploaded_files.headD default) :: errSingle e)
      ∧ (App.main A now nowFile inp).filter isDownload = [])
    ∧ (∀ txt : String, inp.uploaded_files.length = 1 →
      A.extract_text_from_pdf (inp.uploaded_files.headD default) = .ok txt →
      A.analyze_resume txt inp.job_description = .error e →
      App.main A now nowFile inp =
        fileCountEvents inp.uploaded_files ++
          (Event.callExtract (inp.uploaded_files.headD default) ::
            Event.callAnalyze txt inp.job_description :: errSingle e)
      ∧ (App.main A now nowFile inp).filter isDownload = []) := by
  have hmain := main_branches A now nowFile inp hk hb hf hjd
  refine ⟨fun hlen herr => ?_, fun hlen hx => ?_, fun txt hlen hx ha => ?_⟩
  · have hne : ¬ inp.uploaded_files.length = 1 := by omega
    have hrb : runBatch A inp.uploaded_files inp.job_description now nowFile
        = Event.callBatch (inp.uploaded_files.map fun f => (f.name, f))
            inp.job_description :: errBatch e := by
      unfold runBatch
      rw [herr]
    rw [hmain, if_neg hne, hrb]
    refine ⟨rfl, ?_⟩
    rw [List.filter_append, filter_isDownload_fileCount]
    rfl
  · have hrs : runSingle A (inp.uploaded_files.headD default) inp.job_description
        = Event.callExtract (inp.uploaded_files.headD default) :: errSingle e := by
      unfold runSingle
      rw [hx]
    rw [hmain, if_pos hlen, hrs]
    refine ⟨rfl, ?_⟩
    rw [List.filter_append, filter_isDownload_fileCount]
    rfl
  · have hrs : runSingle A (inp.uploaded_files.headD default) inp.job_description
        = Event.callExtract (inp.uploaded_files.headD default) ::
            Event.callAnalyze txt inp.job_description :: errSingle e := by
      unfold runSingle
      simp only [hx]
      simp only [ha]
    rw [hmain, if_pos hlen, hrs]
    refine ⟨rfl, ?_⟩
    rw [List.filter_append, filter_isDownload_fileCount]
    rfl

/-- Witness for C2: a failing batch call, a failing extraction, and a
failing single-resume analysis, each at concrete inputs. -/
theorem analyzer_failure_all_or_nothing_witness :
    (App.main failAnalyzer "T" "F" batchInput =
      fileCountEvents batchInput.uploaded_files ++
        (Event.callBatch (batchInput.uploaded_files.map fun f => (f.name, f))
            batchInput.job_description :: errBatch "boom")
      ∧ (App.main failAnalyzer "T" "F" batchInput).filter isDownload = [])
    ∧ (App.main failAnalyzer "T" "F" singleInput =
      fileCountEvents singleInput.uploaded_files ++
        (Event.callExtract (singleInput.uploaded_files.headD default) ::
          errSingle "boom")
      ∧ (App.main failAnalyzer "T" "F" singleInput).filter isDownload = [])
    ∧ (App.main analyzeFailAnalyzer "T" "F" singleInput =
      fileCountEvents singleInput.uploaded_files ++
        (Event.callExtract (singleInput.uploaded_files.headD default) ::
          Event.callAnalyze "alice resume text" singleInput.job_description ::
            errSingle "boom")
      ∧ (App.main analyzeFailAnalyzer "T" "F" singleInput).filter isDownload = []) :=
  ⟨(analyzer_failure_all_or_nothing failAnalyzer "T" "F" batchInput "boom"
      (by decide) rfl (by decide) (by decide)).1 (by decide) rfl,
   (analyzer_failure_all_or_nothing failAnalyzer "T" "F" singleInput "boom"
      (by decide) rfl (by decide) (by decide)).2.1 rfl rfl,
   (analyzer_failure_all_or_nothing analyzeFailAnalyzer "T" "F" singleInput "boom"
      (by decide) rfl (by decide) (by decide)).2.2 "alice resume text" rfl rfl rfl⟩

/-- Claim C7: on the single-document path, a returned value that is not a
mapping containing the key `JD Match` yields exactly the generic
invalid-response-format error, with no further processing afterwards. -/
theorem invalid_single_response_stops (A : Analyzer) (now nowFile : String)
    (inp : Inputs) (txt : String) (v : SingleValue)
    (hk : inp.api_key ≠ "") (hb : inp.button = true)
    (hf : inp.uploaded_files ≠ []) (hjd : inp.job_description ≠ "")
    (hlen : inp.uploaded_files.length = 1)
    (hx : A.extract_text_from_pdf (inp.uploaded_files.headD default) = .ok txt)
    (ha : A.analyze_resume txt inp.job_description = .ok v)
    (hv : hasJDMatch v = false) :
    App.main A now nowFile inp =
      fileCountEvents inp.uploaded_files ++
        [Event.callExtract (inp.uploaded_files.headD default),
         Event.callAnalyze txt inp.job_description,
         Event.error "Invalid response format from the analyzer"] := by
  have hrs : runSingle A (inp.uploaded_files.headD default) inp.job_description
      = [Event.callExtract (inp.uploaded_files.headD default),
         Event.callAnalyze txt inp.job_description,
         Event.error "Invalid response format from the analyzer"] := by
    unfold runSingle
    simp only [hx]
    simp only [ha]
    cases v with
    | nonDict => rfl
    | dict jm ps mks sg =>
      cases jm with
      | none => rfl
      | some m => exact absurd hv (by simp [hasJDMatch])
  rw [main_branches A now nowFile inp hk hb hf hjd, if_pos hlen, hrs]

/-- Witness for C7 at an analyzer returning a non-mapping value. -/
theorem invalid_single_response_stops_witness :
    App.main badShapeAnalyzer "T" "F" singleInput =
      fileCountEvents singleInput.uploaded_files ++
        [Event.callExtract (singleInput.uploaded_files.headD default),
         Event.callAnalyze "alice resume text" singleInput.job_description,
         Event.error "Invalid response format from the analyzer"] :=
  invalid_single_response_stops badShapeAnalyzer "T" "F" singleInput
    "alice resume text" .nonDict (by decide) rfl (by decide) (by decide)
    rfl rfl rfl rfl

/-- Claim C8 counterexample: two different missing conditions — no resume
uploaded versus an empty job description — produce the same single warning
message, so the warnings are not distinct per condition. -/
theorem missing_condition_warnings_not_distinct :
    warningMsgs (App.main failAnalyzer "T" "F" noFilesInput)
      = warningMsgs (App.main failAnalyzer "T" "F" noJdInput)
    ∧ warningMsgs (App.main failAnalyzer "T" "F" noFilesInput)
      = ["Please upload at least one resume and provide a job description."] :=
  ⟨rfl, rfl⟩

/-- Claim C8 as amended: analysis is blocked until the credential, the job
description and at least one uploaded resume are present; an empty
credential gets its own warning, while a missing job description or
missing uploads get one shared warning, and in either missing case no
analyzer capability is invoked. -/
theorem input_collector_blocking (A : Analyzer) (now nowFile : String)
    (inp : Inputs) :
    (inp.api_key = "" →
      App.main A now nowFile inp =
        [Event.warning "Please enter your OpenAI API key."])
    ∧ (inp.api_key ≠ "" →
      (inp.job_description = "" ∨ inp.uploaded_files = []) →
      warningMsgs (App.main A now nowFile inp)
        = ["Please upload at least one resume and provide a job description."]
      ∧ (App.main A now nowFile inp).filter isCall = []) := by
  constructor
  · intro hk
    unfold App.main
    rw [if_pos hk]
  · intro hk h
    have hg : ¬(inp.button = true ∧ inp.uploaded_files ≠ [] ∧
        inp.job_description ≠ "") := by
      rintro ⟨-, hf, hjd⟩
      rcases h with h | h
      · exact hjd h
      · exact hf h
    rw [main_missing_inputs A now nowFile inp hk hg]
    constructor
    · rw [warningMsgs_append, warningMsgs_fileCount]
      rfl
    · rw [List.filter_append, filter_isCall_fileCount]
      rfl

/-- Witness for the amended C8: an empty credential, then an empty job
description with the credential present. -/
theorem input_collector_blocking_witness :
    (noKeyInput.api_key = "" ∧
      App.main failAnalyzer "T" "F" noKeyInput =
        [Event.warning "Please enter your OpenAI API key."])
    ∧ (noJdInput.api_key ≠ ""
      ∧ (noJdInput.job_description = "" ∨ noJdInput.uploaded_files = [])
      ∧ warningMsgs (App.main failAnalyzer "T" "F" noJdInput)
        = ["Please upload at least one resume and provide a job description."]
      ∧ (App.main failAnalyzer "T" "F" noJdInput).filter isCall = []) :=
  ⟨⟨rfl, (input_collector_blocking failAnalyzer "T" "F" noKeyInput).1 rfl⟩,
   ⟨by decide, Or.inl rfl,
    (input_collector_blocking failAnalyzer "T" "F" noJdInput).2
      (by decide) (Or.inl rfl)⟩⟩
